import Mathlib

/-!
Shallow embedding of the ECE 425 home-security firmware
(`Security.c`, `main.c`, `UART1.c`).

The program is single-threaded and loop-based.  We model it as pure
functions over an explicit state record plus input streams:

* `buttons : Nat → Nat` — the byte returned by `Get_EduBase_Button_Status`
  at each main-loop iteration;
* `rx : Nat → Nat` — the byte stream delivered by `UART1_Input_Character`,
  consumed at a cursor position `pos` (each blocking receive reads one byte
  and advances the cursor).

Every externally visible side effect (LCD calls, delays, LED writes,
buzzer writes, tones, UART traffic) is recorded in an event trace.

A central point of the embedding: `main.c` and `Security.c` EACH define
`static uint8_t system_armed` and `static uint8_t alert_active`.  Being
`static`, these are four distinct file-local variables.  The state record
therefore carries both pairs: `mainArmed`/`mainAlert` (main.c) and
`secArmed`/`secAlert` (Security.c).  `Menu_Controller` (main.c) reads and
writes the `main` pair; `System_Armed` and `Intruder_Alert` (Security.c)
read and write the `sec` pair.
-/

/-- LED output patterns.  Modelled from the spec: the constants
`EDUBASE_LED_ALL_ON` / `EDUBASE_LED_ALL_OFF` live in `GPIO.h`, which is not
part of the sources; the spec describes them as the bulk patterns
"LEDs all-on" and "LEDs all-off" (`SetLeds(allOn|allOff)`). -/
inductive LedPattern where
  | allOn
  | allOff
deriving DecidableEq, Repr

/-- Buzzer tones.  Modelled from the spec: the constants `A4_NOTE` and
`G4_NOTE` live in `Buzzer.h`, which is not part of the sources; the spec
describes them as "tone A4" and "tone G4". -/
inductive Tone where
  | a4
  | g4
deriving DecidableEq, Repr

/-- One externally visible side effect of the firmware. -/
inductive Event where
  | clearDisplay
  | setCursor (col row : Nat)
  | displayString (s : String)
  | delayMs (ms : Nat)
  | ledsOutput (p : LedPattern)
  | playTone (t : Tone) (ms : Nat)
  | buzzerOutput (active : Bool)
  | uartSend (b : Nat)
  | uartRecv (b : Nat)
deriving DecidableEq, Repr

/-- The four file-local `static uint8_t` state variables of the program,
plus `Menu_Controller`'s `static uint8_t last_button_status`. -/
structure SecState where
  mainArmed : Bool
  mainAlert : Bool
  secArmed : Bool
  secAlert : Bool
  lastButton : Nat
deriving DecidableEq, Repr

/-- State at program start: all statics are zero-initialised. -/
def initState : SecState :=
  { mainArmed := false, mainAlert := false, secArmed := false,
    secAlert := false, lastButton := 0 }

/-- `#define READ_DISTANCE 0x55` (Security.c). -/
def READ_DISTANCE : Nat := 0x55

/-- `UART1_Input_Character` (UART1.c): block until a byte is available,
return `DR & 0xFF`.  In the stream model a receive reads the byte at the
cursor and advances the cursor. -/
def UART1_Input_Character (rx : Nat → Nat) (pos : Nat) : Nat × Nat :=
  (rx pos % 256, pos + 1)

/-- `Get_Distance` (Security.c): send `0x55`, receive the high byte then
the low byte, return `(high_byte << 8) | low_byte`.
Result: (distance, new cursor, event trace). -/
def Get_Distance (rx : Nat → Nat) (pos : Nat) : Nat × Nat × List Event :=
  let (high_byte, pos₁) := UART1_Input_Character rx pos
  let (low_byte, pos₂) := UART1_Input_Character rx pos₁
  let distance := (high_byte <<< 8) ||| low_byte
  (distance, pos₂,
    [Event.uartSend READ_DISTANCE, Event.uartRecv high_byte, Event.uartRecv low_byte])

/-- `Display_Main_Menu` (Security.c): clear the LCD, write "Arm System" on
row 0 and "Disarm System" on row 1. -/
def Display_Main_Menu : List Event :=
  [Event.clearDisplay,
   Event.setCursor 0 0, Event.displayString "Arm System",
   Event.setCursor 0 1, Event.displayString "Disarm System"]

/-- `Display_Status` (Security.c): clear the LCD, show `message` on row 0,
hold it for 3000 ms. -/
def Display_Status (message : String) : List Event :=
  [Event.clearDisplay, Event.setCursor 0 0, Event.displayString message,
   Event.delayMs 3000]

/-- One iteration of `Intruder_Alert`'s flash/tone `for` loop body
(Security.c lines 138-147). -/
def alertFlashCycle : List Event :=
  [Event.ledsOutput LedPattern.allOn, Event.playTone Tone.a4 50, Event.delayMs 250,
   Event.ledsOutput LedPattern.allOff, Event.playTone Tone.g4 50, Event.delayMs 250]

/-- The `for (int i = 0; i < 10; i++)` loop of `Intruder_Alert`, as a
recursion on the remaining iteration count. -/
def alertFlashLoop : Nat → List Event
  | 0 => []
  | n + 1 => alertFlashCycle ++ alertFlashLoop n

/-- `Intruder_Alert` (Security.c): show "Intruder"/"Detected" for 3000 ms,
run the flash/tone loop 10 times, then clear `alert_active`, clear
`system_armed` (Security.c's own statics), turn LEDs and buzzer off and
redraw the main menu. -/
def Intruder_Alert (s : SecState) : SecState × List Event :=
  ({ s with secAlert := false, secArmed := false },
   [Event.clearDisplay,
    Event.setCursor 0 0, Event.displayString "Intruder",
    Event.setCursor 0 1, Event.displayString "Detected",
    Event.delayMs 3000]
   ++ alertFlashLoop 10
   ++ [Event.ledsOutput LedPattern.allOff, Event.buzzerOutput false]
   ++ Display_Main_Menu)

/-- The `while (system_armed && !alert_active)` loop of `System_Armed`
(Security.c lines 54-68), with explicit fuel bounding the number of
iterations (the C loop may run unboundedly).
Result: (state, cursor, event trace). -/
def System_Armed_loop (rx : Nat → Nat) : Nat → SecState → Nat → SecState × Nat × List Event
  | 0, s, pos => (s, pos, [])
  | fuel + 1, s, pos =>
    if s.secArmed && !s.secAlert then
      let (distance, pos₁, ev₁) := Get_Distance rx pos
      if 0 < distance && distance ≤ 50 then
        let (s₂, ev₂) := Intruder_Alert { s with secAlert := true }
        let (s₃, pos₂, ev₃) := System_Armed_loop rx fuel s₂ pos₁
        (s₃, pos₂, ev₁ ++ ev₂ ++ [Event.delayMs 100] ++ ev₃)
      else
        let (s₃, pos₂, ev₃) := System_Armed_loop rx fuel s pos₁
        (s₃, pos₂, ev₁ ++ [Event.delayMs 100] ++ ev₃)
    else (s, pos, [])

/-- `System_Armed` (Security.c): clear `alert_active`, run the monitor
loop, and if `system_armed` (Security.c's static) is clear afterwards,
redraw the main menu. -/
def System_Armed (rx : Nat → Nat) (fuel : Nat) (s : SecState) (pos : Nat) :
    SecState × Nat × List Event :=
  let (s₁, pos₁, ev) := System_Armed_loop rx fuel { s with secAlert := false } pos
  if !s₁.secArmed then (s₁, pos₁, ev ++ Display_Main_Menu)
  else (s₁, pos₁, ev)

/-- Number of `Intruder_Alert` invocations recorded in a trace:
`Intruder_Alert` is the only function that writes "Intruder" to the LCD,
and it writes it exactly once per call. -/
def alertInvocations (evs : List Event) : Nat :=
  evs.count (Event.displayString "Intruder")

/-- Number of sensor polls recorded in a trace: `Get_Distance` is the only
function that transmits on UART1, and it sends the single command byte
`0x55` exactly once per call. -/
def sensorPolls (evs : List Event) : Nat :=
  evs.count (Event.uartSend READ_DISTANCE)

/-- `Menu_Controller` (main.c): fires only when `button_status` differs
from the stored `last_button_status`; then dispatches on the exact values
`0x08` (arm), `0x04` (disarm), `0x01` (manual trigger), `0x02` (redraw),
ignoring every other value.  The `switch` on distinct constants is
rendered as an if-chain.  Result: (state, cursor, event trace). -/
def Menu_Controller (rx : Nat → Nat) (fuel : Nat) (s : SecState) (pos : Nat)
    (button_status : Nat) : SecState × Nat × List Event :=
  if button_status ≠ s.lastButton then
    let s := { s with lastButton := button_status }
    if button_status = 0x08 then
      if !s.mainArmed then
        let s := { s with mainArmed := true }
        let (s₁, pos₁, ev) := System_Armed rx fuel s pos
        (s₁, pos₁, Display_Status "System Armed" ++ ev ++ Display_Main_Menu)
      else
        (s, pos, Display_Status "Already Armed" ++ Display_Main_Menu)
    else if button_status = 0x04 then
      if s.mainArmed then
        ({ s with mainArmed := false }, pos,
         Display_Status "System Disarmed" ++ Display_Main_Menu)
      else
        (s, pos, Display_Status "Already Disarmed" ++ Display_Main_Menu)
    else if button_status = 0x01 then
      let (s₁, ev) := Intruder_Alert s
      (s₁, pos, ev)
    else if button_status = 0x02 then
      (s, pos, [Event.clearDisplay] ++ Display_Main_Menu ++ [Event.delayMs 20])
    else
      (s, pos, [])
  else
    (s, pos, [])

/-- One iteration of `main`'s `while (1)` loop (main.c lines 96-104):
read the button status, run `Menu_Controller`, delay 10 ms. -/
def mainIter (buttons rx : Nat → Nat) (fuel : Nat) (i : Nat)
    (s : SecState) (pos : Nat) : SecState × Nat × List Event :=
  let (s₁, pos₁, ev) := Menu_Controller rx fuel s pos (buttons i % 256)
  (s₁, pos₁, ev ++ [Event.delayMs 10])

/-- `main` (main.c) after peripheral initialisation, run for `n` loop
iterations: 100 ms stabilisation delay, initial menu, LEDs off, then the
polling loop.  Result: (state, cursor, cumulative event trace). -/
def mainRun (buttons rx : Nat → Nat) (fuel : Nat) : Nat → SecState × Nat × List Event
  | 0 => (initState, 0, [Event.delayMs 100] ++ Display_Main_Menu
           ++ [Event.ledsOutput LedPattern.allOff])
  | n + 1 =>
    let (s, pos, ev) := mainRun buttons rx fuel n
    let (s₁, pos₁, ev₁) := mainIter buttons rx fuel n s pos
    (s₁, pos₁, ev ++ ev₁)

/-! ## Basic evaluation lemmas -/

/-- If Security.c's `system_armed` is clear, the monitor loop exits at once
(whatever the fuel), touching neither the state nor the sensor. -/
theorem System_Armed_loop_of_not_armed (rx : Nat → Nat) (fuel : Nat)
    (s : SecState) (pos : Nat) (h : s.secArmed = false) :
    System_Armed_loop rx fuel s pos = (s, pos, []) := by
  cases fuel <;> simp [System_Armed_loop, h]

/-- If Security.c's `system_armed` is clear, `System_Armed` merely clears
`alert_active` and redraws the main menu: no sensor poll, no alert. -/
theorem System_Armed_of_not_armed (rx : Nat → Nat) (fuel : Nat)
    (s : SecState) (pos : Nat) (h : s.secArmed = false) :
    System_Armed rx fuel s pos
      = ({ s with secAlert := false }, pos, Display_Main_Menu) := by
  unfold System_Armed
  rw [System_Armed_loop_of_not_armed rx fuel _ pos (by simp [h])]
  simp [h]

/-- `Intruder_Alert` always clears Security.c's `system_armed`. -/
theorem Intruder_Alert_secArmed (s : SecState) :
    (Intruder_Alert s).1.secArmed = false := by
  simp [Intruder_Alert]

/-- No reachable operation of the program ever sets Security.c's
`system_armed`: `Menu_Controller` preserves its falsity. -/
theorem Menu_Controller_secArmed (rx : Nat → Nat) (fuel : Nat) (s : SecState)
    (pos b : Nat) (h : s.secArmed = false) :
    (Menu_Controller rx fuel s pos b).1.secArmed = false := by
  unfold Menu_Controller
  split_ifs <;>
    simp_all [System_Armed_of_not_armed, Intruder_Alert] <;>
    split <;> simp_all

/-- Security.c's `system_armed` is `false` in every reachable state of the
main loop, for every button and sensor input stream. -/
theorem mainRun_secArmed (buttons rx : Nat → Nat) (fuel : Nat) :
    ∀ n, (mainRun buttons rx fuel n).1.secArmed = false
  | 0 => by simp [mainRun, initState]
  | n + 1 => by
    have ih := mainRun_secArmed buttons rx fuel n
    show (mainIter buttons rx fuel n (mainRun buttons rx fuel n).1
        (mainRun buttons rx fuel n).2.1).1.secArmed = false
    unfold mainIter
    exact Menu_Controller_secArmed rx fuel _ _ _ ih

/-- The manual trigger dispatch: when the mask `0x01` is an edge, the
whole of `Menu_Controller`'s work for it is one `Intruder_Alert` call. -/
theorem Menu_Controller_trigger_eq (rx : Nat → Nat) (fuel : Nat)
    (s : SecState) (pos : Nat) (h1 : (1 : Nat) ≠ s.lastButton) :
    Menu_Controller rx fuel s pos 1
      = ((Intruder_Alert { s with lastButton := 1 }).1, pos,
         (Intruder_Alert { s with lastButton := 1 }).2) := by
  simp [Menu_Controller, h1]

/-! ## Claim theorems -/

/-- C2: no operation of the program ever sets the file-local
`system_armed` flag defined in Security.c to a nonzero value (main.c's
`system_armed` is a distinct static of another translation unit): for every
input stream and every number of main-loop iterations the flag stays
`false`; consequently the monitoring loop body in `System_Armed` never
executes — `System_Armed` merely clears `alert_active` and redraws the
menu, performing no sensor poll and never invoking `Intruder_Alert`. -/
theorem c2_security_armed_flag_never_set (buttons rx : Nat → Nat)
    (fuel n pos : Nat) :
    (mainRun buttons rx fuel n).1.secArmed = false ∧
    System_Armed rx fuel (mainRun buttons rx fuel n).1 pos
      = ({ (mainRun buttons rx fuel n).1 with secAlert := false }, pos,
         Display_Main_Menu) ∧
    alertInvocations
      (System_Armed rx fuel (mainRun buttons rx fuel n).1 pos).2.2 = 0 ∧
    sensorPolls
      (System_Armed rx fuel (mainRun buttons rx fuel n).1 pos).2.2 = 0 := by
  have h := mainRun_secArmed buttons rx fuel n
  refine ⟨h, System_Armed_of_not_armed _ _ _ _ h, ?_, ?_⟩ <;>
    rw [System_Armed_of_not_armed _ _ _ _ h] <;> rfl

/-- Joining disjoint bit ranges: for `b < 2 ^ k`, `(a <<< k) ||| b` is the
arithmetic value `a * 2 ^ k + b`. -/
theorem shiftLeft_lor_eq_add (k : Nat) :
    ∀ b, b < 2 ^ k → ∀ a, (a <<< k) ||| b = a * 2 ^ k + b := by
  induction k with
  | zero =>
    intro b hb a
    have hb0 : b = 0 := by omega
    subst hb0
    simp [Nat.shiftLeft_eq]
  | succ k ih =>
    intro b hb a
    have hdiv : b / 2 < 2 ^ k := by
      have h2 : (2 : Nat) ^ (k + 1) = 2 * 2 ^ k := by ring
      omega
    have hshift : a <<< (k + 1) = Nat.bit false (a <<< k) := by
      simp [Nat.bit_val, Nat.shiftLeft_eq, Nat.pow_succ]
      ring
    rw [← Nat.bit_decomp b, hshift, Nat.lor_bit, Bool.false_or, Nat.div2_val,
      ih (b / 2) hdiv a]
    simp [Nat.bit_val, Nat.pow_succ]
    ring

/-- C6: `Get_Distance` sends the single command byte `0x55`, then performs
exactly two blocking byte receives (advancing the receive cursor by exactly
two), and returns `(firstByte <<< 8) ||| secondByte` — arithmetically
`firstByte * 256 + secondByte`, a big-endian 16-bit unsigned result
(< 65536), with no validation of the bytes. -/
theorem c6_get_distance_protocol (rx : Nat → Nat) (pos : Nat) :
    Get_Distance rx pos
      = (((rx pos % 256) <<< 8) ||| (rx (pos + 1) % 256), pos + 2,
         [Event.uartSend 0x55, Event.uartRecv (rx pos % 256),
          Event.uartRecv (rx (pos + 1) % 256)]) ∧
    (Get_Distance rx pos).1 = (rx pos % 256) * 256 + rx (pos + 1) % 256 ∧
    (Get_Distance rx pos).1 < 65536 := by
  have hlo : rx (pos + 1) % 256 < 2 ^ 8 := Nat.mod_lt _ (by norm_num)
  have hhi : rx pos % 256 < 256 := Nat.mod_lt _ (by norm_num)
  have heq := shiftLeft_lor_eq_add 8 (rx (pos + 1) % 256) hlo (rx pos % 256)
  refine ⟨rfl, ?_, ?_⟩
  · show ((rx pos % 256) <<< 8) ||| (rx (pos + 1) % 256)
        = (rx pos % 256) * 256 + rx (pos + 1) % 256
    simpa using heq
  · show ((rx pos % 256) <<< 8) ||| (rx (pos + 1) % 256) < 65536
    rw [heq]
    omega

/-- C1: evaluation at the failing input.  Press arm (mask `0x08`) at
iteration 0 with a sensor that would answer every query with distance 30
(high byte 0, low byte 30, i.e. `0 < 30 ≤ 50`).  After the arm command has
been fully processed the menu controller's armed flag is set, yet the
program has issued no sensor query at all and `Intruder_Alert` has not
been invoked — because `System_Armed`'s loop guard reads Security.c's own
`system_armed`, which is still 0.  This contradicts the claim that a
breach reading while Armed causes exactly one alert invocation. -/
theorem c1_breach_while_armed_never_alerts :
    ((mainRun (fun _ => 8) (fun i => if i % 2 = 0 then 0 else 30) 5 1).1.mainArmed
        = true) ∧
    sensorPolls
      (mainRun (fun _ => 8) (fun i => if i % 2 = 0 then 0 else 30) 5 1).2.2 = 0 ∧
    alertInvocations
      (mainRun (fun _ => 8) (fun i => if i % 2 = 0 then 0 else 30) 5 1).2.2 = 0 := by
  decide

/-- C3: evaluation at the failing input.  Press arm (mask `0x08`) at
iteration 0 with a sensor that would answer every query with distance 200
(high byte 0, low byte 200), then keep running for two further main-loop
iterations.  The claim says the controller now polls the sensor every
100 ms until disarm or breach; in fact the armed program performs zero
sensor reads (and hence also zero 100 ms inter-read pauses inside the
monitor loop). -/
theorem c3_no_polling_while_armed :
    ((mainRun (fun _ => 8) (fun i => if i % 2 = 0 then 0 else 200) 5 3).1.mainArmed
        = true) ∧
    sensorPolls
      (mainRun (fun _ => 8) (fun i => if i % 2 = 0 then 0 else 200) 5 3).2.2 = 0 := by
  decide

/-- C4: once started, `Intruder_Alert` runs a fixed uninterruptible
choreography.  From any state `s` (the routine reads no buttons and no
sensor, so nothing — including a disarm request — can alter its course),
its event trace is exactly: the "Intruder"/"Detected" message held for
3000 ms, then exactly 10 repetitions of the flash/tone cycle (LEDs all-on,
tone A4 for 50 ms, 250 ms pause, LEDs all-off, tone G4 for 50 ms, 250 ms
pause), then LEDs off, buzzer off and the main-menu redraw; and the final
state has the alert flag cleared and Security.c's armed flag forced to
disarmed. -/
theorem c4_alert_sequence_choreography (s : SecState) :
    (Intruder_Alert s).2
      = [Event.clearDisplay,
         Event.setCursor 0 0, Event.displayString "Intruder",
         Event.setCursor 0 1, Event.displayString "Detected",
         Event.delayMs 3000]
        ++ (List.replicate 10
             [Event.ledsOutput LedPattern.allOn, Event.playTone Tone.a4 50,
              Event.delayMs 250,
              Event.ledsOutput LedPattern.allOff, Event.playTone Tone.g4 50,
              Event.delayMs 250]).flatten
        ++ [Event.ledsOutput LedPattern.allOff, Event.buzzerOutput false]
        ++ Display_Main_Menu ∧
    (Intruder_Alert s).1.secAlert = false ∧
    (Intruder_Alert s).1.secArmed = false ∧
    (Intruder_Alert s).2 = (Intruder_Alert initState).2 := by
  refine ⟨rfl, rfl, rfl, rfl⟩

/-- C5: counterexample.  The claim "Alerting is entered only from Armed
and always exits to Disarmed" is false on the code.  First run: the manual
trigger (mask `0x01`) at iteration 0 invokes the alert sequence although
the state is the initial Disarmed one.  Second run: arm at iteration 0,
manual trigger at iteration 1 — the alert sequence runs (invocation count
goes from 0 to 1) while `main.c`'s armed flag is set, and after it
completes the flag is still set: the system exits the alert Armed, not
Disarmed (`Intruder_Alert` clears only Security.c's distinct static). -/
theorem c5_counterexample_alerting_entry_exit :
    (initState.mainArmed = false ∧
     alertInvocations (mainRun (fun _ => 1) (fun _ => 0) 0 1).2.2 = 1 ∧
     (mainRun (fun _ => 1) (fun _ => 0) 0 1).1.mainArmed = false) ∧
    (alertInvocations
        (mainRun (fun i => if i = 0 then 8 else 1) (fun _ => 0) 0 1).2.2 = 0 ∧
     (mainRun (fun i => if i = 0 then 8 else 1) (fun _ => 0) 0 1).1.mainArmed
        = true ∧
     alertInvocations
        (mainRun (fun i => if i = 0 then 8 else 1) (fun _ => 0) 0 2).2.2 = 1 ∧
     (mainRun (fun i => if i = 0 then 8 else 1) (fun _ => 0) 0 2).1.mainArmed
        = true) := by
  decide

/-- C5 (amended): the alert sequence can be entered from any state via the
manual trigger command (only the breach path is gated on an armed flag);
on exit it always clears Security.c's armed and alert flags and leaves
main.c's armed state exactly as it was — it never switches the system to
Armed, and the system ends Disarmed precisely when it was Disarmed at
entry. -/
theorem c5_alerting_entry_exit (s : SecState) (rx : Nat → Nat)
    (fuel pos : Nat) (h : s.lastButton ≠ 1) :
    alertInvocations (Menu_Controller rx fuel s pos 1).2.2 = 1 ∧
    (Intruder_Alert s).1.secArmed = false ∧
    (Intruder_Alert s).1.secAlert = false ∧
    (Intruder_Alert s).1.mainArmed = s.mainArmed ∧
    (Menu_Controller rx fuel s pos 1).1.mainArmed = s.mainArmed := by
  have hmc := Menu_Controller_trigger_eq rx fuel s pos (fun hh => h hh.symm)
  refine ⟨?_, by simp [Intruder_Alert], by simp [Intruder_Alert],
    by simp [Intruder_Alert], ?_⟩
  · rw [hmc]
    show alertInvocations (Intruder_Alert initState).2 = 1
    decide
  · rw [hmc]
    simp [Intruder_Alert]

/-- C5 (amended) witness at a concrete input: the initial state, a zero
sensor stream, zero fuel, cursor 0. -/
theorem c5_alerting_entry_exit_witness :
    initState.lastButton ≠ 1 ∧
    (alertInvocations
        (Menu_Controller (fun _ => 0) 0 initState 0 1).2.2 = 1 ∧
     (Intruder_Alert initState).1.secArmed = false ∧
     (Intruder_Alert initState).1.secAlert = false ∧
     (Intruder_Alert initState).1.mainArmed = initState.mainArmed ∧
     (Menu_Controller (fun _ => 0) 0 initState 0 1).1.mainArmed
        = initState.mainArmed) :=
  ⟨by decide, c5_alerting_entry_exit initState (fun _ => 0) 0 0 (by decide)⟩

/-- C7: the manual trigger command (mask `0x01`) invokes the alert
sequence regardless of the current armed state — for every state `s`
(armed or not) the dispatch is exactly one `Intruder_Alert` call whose
full trace is emitted; and when the trigger is issued while Disarmed the
sequence runs to completion and the system ends Disarmed (main.c's armed
flag still clear, Security.c's armed and alert flags clear). -/
theorem c7_manual_trigger_any_state (s : SecState) (rx : Nat → Nat)
    (fuel pos : Nat) (h : s.lastButton ≠ 1) :
    Menu_Controller rx fuel s pos 1
      = ((Intruder_Alert { s with lastButton := 1 }).1, pos,
         (Intruder_Alert { s with lastButton := 1 }).2) ∧
    (Menu_Controller rx fuel s pos 1).2.2 = (Intruder_Alert initState).2 ∧
    (s.mainArmed = false →
      (Menu_Controller rx fuel s pos 1).1.mainArmed = false ∧
      (Menu_Controller rx fuel s pos 1).1.secArmed = false ∧
      (Menu_Controller rx fuel s pos 1).1.secAlert = false) := by
  have hmc := Menu_Controller_trigger_eq rx fuel s pos (fun hh => h hh.symm)
  refine ⟨hmc, by rw [hmc]; rfl, ?_⟩
  intro hd
  rw [hmc]
  simp [Intruder_Alert, hd]

/-- C7 witness: manual trigger from the initial (Disarmed) state. -/
theorem c7_manual_trigger_any_state_witness :
    initState.lastButton ≠ 1 ∧
    (Menu_Controller (fun _ => 0) 0 initState 0 1
        = ((Intruder_Alert { initState with lastButton := 1 }).1, 0,
           (Intruder_Alert { initState with lastButton := 1 }).2) ∧
     (Menu_Controller (fun _ => 0) 0 initState 0 1).2.2
        = (Intruder_Alert initState).2 ∧
     (initState.mainArmed = false →
       (Menu_Controller (fun _ => 0) 0 initState 0 1).1.mainArmed = false ∧
       (Menu_Controller (fun _ => 0) 0 initState 0 1).1.secArmed = false ∧
       (Menu_Controller (fun _ => 0) 0 initState 0 1).1.secAlert = false)) :=
  ⟨by decide, c7_manual_trigger_any_state initState (fun _ => 0) 0 0 (by decide)⟩

/-- C8: the disarm command (mask `0x04`, on an edge) issued while main.c's
state is Armed always transitions the state to Disarmed, displaying
"System Disarmed" and redrawing the menu; and the dispatch performs no
sensor poll — no polling continues after the disarm. -/
theorem c8_disarm_from_armed (rx : Nat → Nat) (fuel : Nat) (s : SecState)
    (pos : Nat) (h : s.lastButton ≠ 4) (ha : s.mainArmed = true) :
    Menu_Controller rx fuel s pos 4
      = ({ s with mainArmed := false, lastButton := 4 }, pos,
         Display_Status "System Disarmed" ++ Display_Main_Menu) ∧
    (Menu_Controller rx fuel s pos 4).1.mainArmed = false ∧
    sensorPolls (Menu_Controller rx fuel s pos 4).2.2 = 0 := by
  have h4 : (4 : Nat) ≠ s.lastButton := fun hh => h hh.symm
  have hmc : Menu_Controller rx fuel s pos 4
      = ({ s with mainArmed := false, lastButton := 4 }, pos,
         Display_Status "System Disarmed" ++ Display_Main_Menu) := by
    simp [Menu_Controller, h4, ha]
  refine ⟨hmc, by rw [hmc], by rw [hmc]; rfl⟩

/-- C8 witness: disarm pressed in an armed state with fresh edge memory. -/
theorem c8_disarm_from_armed_witness :
    ({ initState with mainArmed := true } : SecState).lastButton ≠ 4 ∧
    ({ initState with mainArmed := true } : SecState).mainArmed = true ∧
    (Menu_Controller (fun _ => 0) 0 { initState with mainArmed := true } 0 4
      = ({ initState with mainArmed := false, lastButton := 4 }, 0,
         Display_Status "System Disarmed" ++ Display_Main_Menu) ∧
     (Menu_Controller (fun _ => 0) 0 { initState with mainArmed := true } 0 4).1.mainArmed
        = false ∧
     sensorPolls
       (Menu_Controller (fun _ => 0) 0 { initState with mainArmed := true } 0 4).2.2
        = 0) :=
  ⟨by decide, by decide,
   c8_disarm_from_armed (fun _ => 0) 0 { initState with mainArmed := true } 0
     (by decide) (by decide)⟩

/-- C9: a redundant command is a no-op on the armed state with a status
message.  Arm (mask `0x08`) on an edge while already Armed leaves every
state flag unchanged (only the edge memory is updated) and emits
"Already Armed"; disarm (mask `0x04`) on an edge while Disarmed leaves
every state flag unchanged and emits "Already Disarmed".  (The Alerting
phase dispatches no commands at all — `Intruder_Alert` runs to completion
inside a single `Menu_Controller` call — so the "arm while Alerting" case
is vacuous.) -/
theorem c9_redundant_commands_noop (rx : Nat → Nat) (fuel : Nat)
    (s : SecState) (pos : Nat) :
    (s.lastButton ≠ 8 → s.mainArmed = true →
      Menu_Controller rx fuel s pos 8
        = ({ s with lastButton := 8 }, pos,
           Display_Status "Already Armed" ++ Display_Main_Menu)) ∧
    (s.lastButton ≠ 4 → s.mainArmed = false →
      Menu_Controller rx fuel s pos 4
        = ({ s with lastButton := 4 }, pos,
           Display_Status "Already Disarmed" ++ Display_Main_Menu)) := by
  constructor
  · intro h ha
    have h8 : (8 : Nat) ≠ s.lastButton := fun hh => h hh.symm
    simp [Menu_Controller, h8, ha]
  · intro h ha
    have h4 : (4 : Nat) ≠ s.lastButton := fun hh => h hh.symm
    simp [Menu_Controller, h4, ha]

/-- C9 witness: arm while Armed and disarm while Disarmed, each at a
concrete state with fresh edge memory. -/
theorem c9_redundant_commands_noop_witness :
    (Menu_Controller (fun _ => 0) 0 { initState with mainArmed := true } 0 8
      = ({ initState with mainArmed := true, lastButton := 8 }, 0,
         Display_Status "Already Armed" ++ Display_Main_Menu)) ∧
    (Menu_Controller (fun _ => 0) 0 initState 0 4
      = ({ initState with lastButton := 4 }, 0,
         Display_Status "Already Disarmed" ++ Display_Main_Menu)) :=
  ⟨(c9_redundant_commands_noop (fun _ => 0) 0
      { initState with mainArmed := true } 0).1 (by decide) (by decide),
   (c9_redundant_commands_noop (fun _ => 0) 0 initState 0).2
      (by decide) (by decide)⟩

/-- `Intruder_Alert` does not touch the edge-detector memory. -/
theorem Intruder_Alert_lastButton (s : SecState) :
    (Intruder_Alert s).1.lastButton = s.lastButton := by
  simp [Intruder_Alert]

/-- The monitor loop does not touch the edge-detector memory. -/
theorem System_Armed_loop_lastButton (rx : Nat → Nat) :
    ∀ fuel s pos, ((System_Armed_loop rx fuel s pos).1).lastButton = s.lastButton
  | 0, _, _ => rfl
  | fuel + 1, s, pos => by
    have ih := System_Armed_loop_lastButton rx fuel
    unfold System_Armed_loop
    split
    · split
      split <;> simp [Intruder_Alert, ih]
    · rfl

/-- `System_Armed` does not touch the edge-detector memory. -/
theorem System_Armed_lastButton (rx : Nat → Nat) (fuel : Nat) (s : SecState)
    (pos : Nat) : ((System_Armed rx fuel s pos).1).lastButton = s.lastButton := by
  unfold System_Armed
  split
  next s₃ pos₂ ev₃ heq =>
    have h := System_Armed_loop_lastButton rx fuel { s with secAlert := false } pos
    rw [heq] at h
    simp only at h
    split <;> simpa using h

/-- After any `Menu_Controller` call the stored `last_button_status` is
the mask that was just seen (either it was just stored, or it was already
equal and nothing changed). -/
theorem Menu_Controller_lastButton (rx : Nat → Nat) (fuel : Nat)
    (s : SecState) (pos mask : Nat) :
    (Menu_Controller rx fuel s pos mask).1.lastButton = mask := by
  by_cases h : mask ≠ s.lastButton
  · simp only [Menu_Controller, if_pos h]
    split_ifs <;> simp [System_Armed_lastButton, Intruder_Alert]
  · push_neg at h
    simp [Menu_Controller, h]

/-- C10: button commands are edge-triggered on the raw mask.  (1) A mask
equal to the previously seen one does nothing at all (state, cursor and
trace unchanged) — so holding a button fires its command exactly once, as
conjunct (3) shows: immediately repeating any mask is a no-op.  (2) On an
edge, any mask other than the exact one-hot values `0x01`, `0x02`, `0x04`,
`0x08` is silently ignored: no command runs, no output is emitted, only
the edge memory is updated. -/
theorem c10_edge_triggered_dispatch (rx : Nat → Nat) (fuel : Nat)
    (s : SecState) (pos pos₂ mask : Nat) :
    (mask = s.lastButton → Menu_Controller rx fuel s pos mask = (s, pos, [])) ∧
    (mask ≠ s.lastButton → mask ≠ 1 → mask ≠ 2 → mask ≠ 4 → mask ≠ 8 →
      Menu_Controller rx fuel s pos mask
        = ({ s with lastButton := mask }, pos, [])) ∧
    (Menu_Controller rx fuel (Menu_Controller rx fuel s pos mask).1 pos₂ mask
      = ((Menu_Controller rx fuel s pos mask).1, pos₂, [])) := by
  refine ⟨?_, ?_, ?_⟩
  · intro h
    simp [Menu_Controller, h]
  · intro h h1 h2 h4 h8
    simp [Menu_Controller, h, h1, h2, h4, h8]
  · have hl := Menu_Controller_lastButton rx fuel s pos mask
    generalize (Menu_Controller rx fuel s pos mask).1 = t at hl ⊢
    simp [Menu_Controller, hl]

/-- C10 witness: from the initial state, mask `0x00` (equal to the stored
mask) is a no-op; mask `0x05` (an edge, but not one-hot) is silently
ignored; and repeating mask `0x05` right away is a no-op. -/
theorem c10_edge_triggered_dispatch_witness :
    (Menu_Controller (fun _ => 0) 0 initState 0 0 = (initState, 0, [])) ∧
    (Menu_Controller (fun _ => 0) 0 initState 0 5
      = ({ initState with lastButton := 5 }, 0, [])) ∧
    (Menu_Controller (fun _ => 0) 0 (Menu_Controller (fun _ => 0) 0 initState 0 5).1 1 5
      = ((Menu_Controller (fun _ => 0) 0 initState 0 5).1, 1, [])) :=
  ⟨(c10_edge_triggered_dispatch (fun _ => 0) 0 initState 0 1 0).1 (by decide),
   (c10_edge_triggered_dispatch (fun _ => 0) 0 initState 0 1 5).2.1
     (by decide) (by decide) (by decide) (by decide) (by decide),
   (c10_edge_triggered_dispatch (fun _ => 0) 0 initState 0 1 5).2.2⟩
